import Mathlib

/-!
Verification development for the good-composer repository.

The first part embeds the incremental thinking-tag splitter that lives in
the body of `LLMClient.stream_completion` (src/llm.py, lines 58-112): the
mutable variables `in_thinking` / `buffer` become an explicit state, the
`while buffer:` loop becomes a fuel-indexed recursion (the fuel is the
buffer length, which suffices because every loop iteration either stops or
consumes at least seven characters of the buffer), and each `yield`
becomes an element of the returned event list.  Strings are modelled as
`List Char` so that Python slicing (`buffer[:e]`, `buffer[e+8:]`) becomes
`List.take` / `List.drop` and `str.find` becomes a recursive scan.

The second part embeds the session / lifecycle logic of src/server.py.
-/

set_option maxRecDepth 10000

/-- Kind of a classified event emitted by the tag splitter: the first
component of the `("thinking", ...)` / `("content", ...)` tuples yielded
by `stream_completion`. -/
inductive TKind where
  | thinking
  | content
deriving DecidableEq, Repr

/-- A classified event: kind plus the text yielded with it. -/
abbrev TEvent := TKind × List Char

namespace TagSplittingParser

/-- The opening delimiter `"<think>"` (7 characters), as in src/llm.py line 84. -/
def openTag : List Char := "<think>".data

/-- The closing delimiter `"</think>"` (8 characters), as in src/llm.py line 70. -/
def closeTag : List Char := "</think>".data

/-- Model of Python `haystack.find(needle)` (src/llm.py lines 70, 84),
returning the offset of the leftmost occurrence, `none` for `-1`. -/
def pyFind (needle : List Char) : List Char → Option Nat
  | [] => none
  | c :: rest =>
    if needle.isPrefixOf (c :: rest) then some 0
    else (pyFind needle rest).map (· + 1)

/-- Model of the partial-opening-tag test at src/llm.py line 93:
`buffer.endswith("<") or any(buffer.endswith("<think>"[:i]) for i in range(1, 7))`,
i.e. the buffer ends with a strict nonempty prefix of `"<think>"`
(lengths 1..6; the separate `"<"` test is the length-1 case). -/
def couldBeTagStart (buf : List Char) : Bool :=
  (List.range 6).any (fun i => (openTag.take (i + 1)).isSuffixOf buf)

/-- One run of the `while buffer:` loop of src/llm.py lines 68-98, returning
the events yielded, the final `in_thinking` flag and the final `buffer`.
The first argument is fuel; calling it with the buffer length (as `feed`
does) never exhausts it, since each recursive step drops at least 7
characters from a nonempty buffer. -/
def splitStep : Nat → Bool → List Char → List TEvent × Bool × List Char
  | 0, in_thinking, buf => ([], in_thinking, buf)
  | fuel + 1, in_thinking, buf =>
    if buf = [] then ([], in_thinking, buf)
    else if in_thinking then
      match pyFind closeTag buf with
      | some e =>
        -- lines 71-76: emit `buffer[:end_idx]` when `end_idx > 0`,
        -- drop the 8-character delimiter, leave thinking mode, loop on
        let pre : List TEvent := if 0 < e then [(TKind.thinking, buf.take e)] else []
        let r := splitStep fuel false (buf.drop (e + 8))
        (pre ++ r.1, r.2.1, r.2.2)
      | none =>
        -- lines 77-82: "Partial thinking, yield and clear" — the whole
        -- buffer is yielded as thinking, the buffer cleared, loop exits
        ([(TKind.thinking, buf)], true, [])
    else
      match pyFind openTag buf with
      | some s =>
        -- lines 85-90: emit `buffer[:start_idx]` when `start_idx > 0`,
        -- drop the 7-character delimiter, enter thinking mode, loop on
        let pre : List TEvent := if 0 < s then [(TKind.content, buf.take s)] else []
        let r := splitStep fuel true (buf.drop (s + 7))
        (pre ++ r.1, r.2.1, r.2.2)
      | none =>
        -- lines 91-98: retain a possible partial tag, else yield as content
        if couldBeTagStart buf then ([], false, buf)
        else ([(TKind.content, buf)], false, [])

/-- Parser state: the `in_thinking` flag and the retained `buffer`
(src/llm.py lines 58-59). -/
structure TagState where
  in_thinking : Bool
  buffer : List Char
deriving DecidableEq, Repr

/-- Initial state (`in_thinking = False`, `buffer = ""`). -/
def initState : TagState := ⟨false, []⟩

/-- Feeding one upstream fragment: src/llm.py lines 63-98.  When the
fragment is empty the `if content:` guard skips everything; otherwise the
fragment is appended to the buffer and the `while buffer:` loop runs. -/
def feed (st : TagState) (frag : List Char) : List TEvent × TagState :=
  if frag = [] then ([], st)
  else
    let buf := st.buffer ++ frag
    let r := splitStep buf.length st.in_thinking buf
    (r.1, ⟨r.2.1, r.2.2⟩)

/-- End-of-stream flush: src/llm.py lines 106-112 — residual buffer text
is yielded under the current `in_thinking` classification. -/
def flush (st : TagState) : List TEvent :=
  if st.buffer = [] then []
  else [((if st.in_thinking then TKind.thinking else TKind.content), st.buffer)]

/-- Feed a list of fragments in order from a given state. -/
def feedAll : TagState → List (List Char) → List TEvent × TagState
  | st, [] => ([], st)
  | st, f :: rest =>
    let r := feed st f
    let rr := feedAll r.2 rest
    (r.1 ++ rr.1, rr.2)

/-- The complete event sequence of one streamed response: every fragment
fed in order from the initial state, followed by the flush. -/
def run (frags : List (List Char)) : List TEvent :=
  let r := feedAll initState frags
  r.1 ++ flush r.2

/-- Concatenation, in emission order, of the text of all Content events. -/
def contentText (evs : List TEvent) : List Char :=
  (evs.filterMap (fun e => if e.1 = TKind.content then some e.2 else none)).flatten

/-- Concatenation, in emission order, of the text of all Thinking events. -/
def thinkingText (evs : List TEvent) : List Char :=
  (evs.filterMap (fun e => if e.1 = TKind.thinking then some e.2 else none)).flatten

/-- Every event produced by one pass of the tag-scanning loop has nonempty
text: the `end_idx > 0` / `start_idx > 0` guards protect the pre-delimiter
emissions, and the whole-buffer emissions happen under the `while buffer:`
guard. -/
theorem splitStep_events_ne :
    ∀ (fuel : Nat) (inTh : Bool) (buf : List Char),
      ∀ ev ∈ (splitStep fuel inTh buf).1, ev.2 ≠ [] := by
  intro fuel
  induction fuel with
  | zero => intro inTh buf ev h; simp [splitStep] at h
  | succ n ih =>
    intro inTh buf ev h
    by_cases hb : buf = []
    · simp [splitStep, hb] at h
    · cases inTh with
      | true =>
        rcases hfind : pyFind closeTag buf with _ | e
        · simp [splitStep, hb, hfind] at h
          rw [h]
          simpa using hb
        · simp [splitStep, hb, hfind] at h
          rcases h with h | h
          · rcases h with ⟨he, hev⟩
            rw [hev]
            simp [List.take_eq_nil_iff, hb]
            omega
          · exact ih false (buf.drop (e + 8)) ev h
      | false =>
        rcases hfind : pyFind openTag buf with _ | s
        · by_cases hc : couldBeTagStart buf
          · simp [splitStep, hb, hfind, hc] at h
          · simp [splitStep, hb, hfind, hc] at h
            rw [h]
            simpa using hb
        · simp [splitStep, hb, hfind] at h
          rcases h with h | h
          · rcases h with ⟨hs, hev⟩
            rw [hev]
            simp [List.take_eq_nil_iff, hb]
            omega
          · exact ih true (buf.drop (s + 7)) ev h

/-- Events produced by feeding one fragment all have nonempty text. -/
theorem feed_events_ne (st : TagState) (frag : List Char) :
    ∀ ev ∈ (feed st frag).1, ev.2 ≠ [] := by
  intro ev h
  by_cases hf : frag = []
  · simp [feed, hf] at h
  · simp only [feed, if_neg hf] at h
    exact splitStep_events_ne _ _ _ ev h

/-- Events produced by feeding any fragment sequence all have nonempty text. -/
theorem feedAll_events_ne :
    ∀ (frags : List (List Char)) (st : TagState),
      ∀ ev ∈ (feedAll st frags).1, ev.2 ≠ [] := by
  intro frags
  induction frags with
  | nil => intro st ev h; simp [feedAll] at h
  | cons f rest ih =>
    intro st ev h
    simp only [feedAll, List.mem_append] at h
    rcases h with h | h
    · exact feed_events_ne st f ev h
    · exact ih _ ev h

/-- The flush emission (guarded by `if buffer:`) has nonempty text. -/
theorem flush_events_ne (st : TagState) :
    ∀ ev ∈ flush st, ev.2 ≠ [] := by
  intro ev h
  by_cases hb : st.buffer = []
  · simp [flush, hb] at h
  · simp [flush, hb] at h
    rw [h]
    exact hb

end TagSplittingParser

/-- C8: feeding the text `"A<think>B"` — content `"A"`, an opening
delimiter, `"B"`, and no closing delimiter — and then flushing at
end-of-stream yields exactly `[(Content, "A"), (Thinking, "B")]`; and in
general the flush emits any residual buffered text under the current
`in_thinking` classification (src/llm.py lines 106-112), not an error. -/
theorem C8_unclosed_delimiter :
    TagSplittingParser.run ["A<think>B".data] =
      [(TKind.content, "A".data), (TKind.thinking, "B".data)] ∧
    ∀ st : TagSplittingParser.TagState,
      TagSplittingParser.flush st =
        if st.buffer = [] then []
        else [((if st.in_thinking then TKind.thinking else TKind.content), st.buffer)] :=
  ⟨by decide, fun _ => rfl⟩

/-- C9: for every sequence of fed fragments, including the flush at
end-of-stream, the splitter never emits an event whose text is empty. -/
theorem C9_no_empty_events :
    ∀ (frags : List (List Char)) (ev : TEvent),
      ev ∈ TagSplittingParser.run frags → ev.2 ≠ [] := by
  intro frags ev h
  simp only [TagSplittingParser.run, List.mem_append] at h
  rcases h with h | h
  · exact TagSplittingParser.feedAll_events_ne frags TagSplittingParser.initState ev h
  · exact TagSplittingParser.flush_events_ne _ ev h

/-- Witness for C9 at a concrete input: the single fragment `"A<th"` is
retained at feed time (partial opening tag) and emitted whole by the
flush, and that event's text is indeed nonempty. -/
theorem C9_no_empty_events_witness :
    (TKind.content, "A<th".data) ∈ TagSplittingParser.run ["A<th".data] ∧
    ("A<th".data : List Char) ≠ [] :=
  ⟨by decide, C9_no_empty_events ["A<th".data] (TKind.content, "A<th".data) (by decide)⟩

/-- C1 (falsified at a concrete input): chunking invariance fails.  When
the closing delimiter `"</think>"` is split across two fragments while the
parser is inside a thinking span, the code at src/llm.py lines 77-82
yields the whole buffer — including the partial `"</th"` — as Thinking and
clears it, so the closing delimiter is never recognised: the fragmented
feed of `"<think>A</think>B"` as `"<think>A</th"` + `"ink>B"` emits
Thinking `"A</th"` and `"ink>B"` (and no Content at all), while the
one-fragment feed emits Thinking `"A"` and Content `"B"`.  Both the
Content and the Thinking concatenations therefore differ between the two
fragmentations of the same total text. -/
theorem C1_chunking_divergence :
    TagSplittingParser.run ["<think>A</th".data, "ink>B".data] =
      [(TKind.thinking, "A</th".data), (TKind.thinking, "ink>B".data)] ∧
    TagSplittingParser.run ["<think>A</th".data ++ "ink>B".data] =
      [(TKind.thinking, "A".data), (TKind.content, "B".data)] ∧
    TagSplittingParser.contentText
        (TagSplittingParser.run ["<think>A</th".data, "ink>B".data]) ≠
      TagSplittingParser.contentText
        (TagSplittingParser.run ["<think>A</th".data ++ "ink>B".data]) ∧
    TagSplittingParser.thinkingText
        (TagSplittingParser.run ["<think>A</th".data, "ink>B".data]) ≠
      TagSplittingParser.thinkingText
        (TagSplittingParser.run ["<think>A</th".data ++ "ink>B".data]) :=
  ⟨by decide, by decide, by decide, by decide⟩

/-! Embedding of src/server.py.  Domain data (instrument banks, prompt
templates) is transcribed verbatim; the per-connection lifecycle follows
below. -/

/-- One instrument entry of an instrument bank (src/server.py lines
32-89).  The dict keys of each bank's `instruments` are exactly 0..7 in
order in the source; here they are modelled by list position. -/
structure Instrument where
  name : String
  lo : Nat
  hi : Nat
  desc : String
deriving DecidableEq, Repr

/-- One instrument bank (src/server.py lines 32-89). -/
structure Bank where
  name : String
  desc : String
  instruments : List Instrument
deriving DecidableEq, Repr

/-- The `"electronic"` bank (src/server.py lines 33-46). -/
def electronicBank : Bank :=
  ⟨"Electronic", "Modern synthesizers and electronic sounds",
    [⟨"saw_lead", 48, 96, "cutting sawtooth lead synth"⟩,
     ⟨"synth_bass", 24, 60, "punchy electronic bass"⟩,
     ⟨"synth_strings", 48, 84, "lush synthetic string pad"⟩,
     ⟨"square_lead", 60, 96, "retro square wave melody"⟩,
     ⟨"polysynth", 48, 84, "warm polyphonic synth pad"⟩,
     ⟨"dist_guitar", 48, 84, "distorted power guitar"⟩,
     ⟨"rock_organ", 36, 84, "gritty rock organ"⟩,
     ⟨"drums", 36, 72, "electronic drum kit"⟩]⟩

/-- The `"acoustic"` bank (src/server.py lines 47-60). -/
def acousticBank : Bank :=
  ⟨"Acoustic/Piano", "Natural acoustic instruments centered around piano",
    [⟨"grand_piano", 21, 108, "concert grand piano"⟩,
     ⟨"acoustic_bass", 24, 60, "upright acoustic bass"⟩,
     ⟨"strings", 48, 84, "orchestral string ensemble"⟩,
     ⟨"flute", 60, 96, "concert flute melody"⟩,
     ⟨"choir", 48, 84, "vocal choir pad"⟩,
     ⟨"acoustic_guitar", 40, 84, "nylon string guitar"⟩,
     ⟨"vibraphone", 53, 89, "jazz vibraphone"⟩,
     ⟨"drums", 36, 72, "acoustic drum kit"⟩]⟩

/-- The `"orchestral"` bank (src/server.py lines 61-74). -/
def orchestralBank : Bank :=
  ⟨"Orchestral/Cinematic", "Epic orchestral instruments for cinematic compositions",
    [⟨"piano", 21, 108, "grand piano"⟩,
     ⟨"contrabass", 24, 60, "orchestral contrabass"⟩,
     ⟨"strings", 36, 96, "full string orchestra"⟩,
     ⟨"brass", 36, 84, "brass section"⟩,
     ⟨"choir", 48, 84, "epic choir"⟩,
     ⟨"harp", 24, 103, "concert harp"⟩,
     ⟨"woodwinds", 48, 96, "woodwind ensemble"⟩,
     ⟨"timpani", 36, 72, "orchestral percussion"⟩]⟩

/-- The `"retro"` bank (src/server.py lines 75-88). -/
def retroBank : Bank :=
  ⟨"Retro/8-bit", "Chiptune and retro video game sounds",
    [⟨"pulse_lead", 36, 96, "classic pulse wave lead"⟩,
     ⟨"triangle_bass", 24, 60, "triangle wave bass"⟩,
     ⟨"noise_pad", 48, 84, "filtered noise texture"⟩,
     ⟨"square_lead", 60, 96, "bright square melody"⟩,
     ⟨"arp_synth", 48, 84, "arpeggio synth"⟩,
     ⟨"chip_pluck", 48, 84, "short chip pluck"⟩,
     ⟨"fm_bells", 48, 96, "FM synthesis bells"⟩,
     ⟨"drums", 36, 72, "8-bit drum samples"⟩]⟩

/-- The instrument-bank table `INSTRUMENT_BANKS` (src/server.py lines
32-89), key order as in the source dict. -/
def INSTRUMENT_BANKS : List (String × Bank) :=
  [("electronic", electronicBank), ("acoustic", acousticBank),
   ("orchestral", orchestralBank), ("retro", retroBank)]

/-- `DEFAULT_BANK` (src/server.py line 92). -/
def DEFAULT_BANK : String := "electronic"

/-- Model of `INSTRUMENT_BANKS.get(k)`. -/
def lookupBank (k : String) : Option Bank :=
  (INSTRUMENT_BANKS.find? (fun p => p.1 == k)).map (·.2)

/-- The valid bank keys, i.e. membership in `INSTRUMENT_BANKS`. -/
def bankKeys : List String := INSTRUMENT_BANKS.map Prod.fst

/-- Model of `INSTRUMENT_BANKS.get(bank_id, INSTRUMENT_BANKS[DEFAULT_BANK])`
where `bank_id` may also be the session's unset (`None`) value
(src/server.py lines 94-97): an unknown or absent key falls back to the
electronic bank. -/
def get_bank (bank_id : Option String) : Bank :=
  match bank_id with
  | some k => (lookupBank k).getD electronicBank
  | none => electronicBank

/-- `get_bank_instruments` (src/server.py lines 94-97). -/
def get_bank_instruments (bank_id : Option String) : List Instrument :=
  (get_bank bank_id).instruments

/-- `build_instrument_list` (src/server.py lines 99-107); the iteration is
`for i in range(8)` over the bank's instrument dict, whose keys are
exactly 0..7, so the `getD` default is unreachable. -/
def build_instrument_list (bank_id : Option String) : String :=
  let instruments := get_bank_instruments bank_id
  String.intercalate "\n" ((List.range 8).map (fun i =>
    let inst := instruments.getD i ⟨"", 0, 0, ""⟩
    "- " ++ toString i ++ ": " ++ inst.name ++ " (range " ++ toString inst.lo ++ "-" ++
      toString inst.hi ++ ") - " ++ inst.desc))

/-- `build_instrument_summary` (src/server.py lines 109-113). -/
def build_instrument_summary (bank_id : Option String) : String :=
  let instruments := get_bank_instruments bank_id
  String.intercalate ", " ((List.range 8).map (fun i =>
    toString i ++ "=" ++ (instruments.getD i ⟨"", 0, 0, ""⟩).name))

/-- `get_system_prompt` (src/server.py lines 115-161).  A truthy, known
`bank_id` produces the bank-locked section; otherwise (including an
unknown key) the auto-selection section is used with the electronic
instrument list as example. -/
def get_system_prompt (bank_id : Option String) : String :=
  let bank_info : Option Bank :=
    match bank_id with
    | some b => if b ≠ "" then lookupBank b else none
    | none => none
  let bank_section : String :=
    match bank_info with
    | some info =>
      "Instrument Bank: " ++ info.name ++ "\nStyle: " ++ info.desc ++
        "\nIMPORTANT: Only use instruments from this bank. Do not suggest switching banks.\n\n"
    | none =>
      let bank_options := String.intercalate "\n" (INSTRUMENT_BANKS.map (fun p =>
        "- " ++ p.1 ++ ": " ++ p.2.name ++ " - " ++ p.2.desc))
      "No instrument bank specified. Choose one that best fits the requested style.\nAvailable banks:\n"
        ++ bank_options ++
        "\n\nIMPORTANT: Your FIRST line of output MUST be: \x7b\"bank\": \"<bank_id>\"\x7d\nThen output note events. Example first line: \x7b\"bank\": \"electronic\"\x7d\n\n"
  let instrument_list : String :=
    match bank_info with
    | some _ => build_instrument_list bank_id
    | none => build_instrument_list (some DEFAULT_BANK)
  "You are a music composer generating MIDI sequences with multiple instruments.\n\n"
    ++ bank_section ++
    "Output format: JSON note events, one per line for streaming.\nEach event: \x7b\"t\": <time_ms>, \"n\": <note_0-127>, \"v\": <velocity_1-127>, \"d\": <duration_ms>, \"i\": <instrument_id>\x7d\n\nAvailable instruments:\n"
    ++ instrument_list ++
    "\n\nGuidelines:\n- Output ONLY valid JSON (bank selection if needed, then note events), one per line\n- Choose 2-4 instruments that match the requested style/mood\n- Keep each instrument within its optimal pitch range\n- Bass (i=1): notes 24-48, foundation\n- Melody (i=0,3): notes 60-84, prominence\n- Pads/strings (i=2,4): notes 48-72, harmonic support\n- Vary velocity for dynamics (soft: 40-60, medium: 70-90, loud: 100-127)\n- Generate at least 200-500 notes for a complete piece\n\nExample:\n\x7b\"t\": 0, \"n\": 36, \"v\": 70, \"d\": 2000, \"i\": 1\x7d\n\x7b\"t\": 0, \"n\": 60, \"v\": 65, \"d\": 1500, \"i\": 4\x7d\n\x7b\"t\": 500, \"n\": 72, \"v\": 85, \"d\": 500, \"i\": 0\x7d"

/-- `get_refinement_prompt` (src/server.py lines 163-178); the bank
argument is the session's stored value, which may be unset (`None` in the
dict), and resolves through the default lookup. -/
def get_refinement_prompt (bank_id : Option String) (end_time : Int) : String :=
  let bank_info := get_bank bank_id
  let instrument_summary := build_instrument_summary bank_id
  "You are ADDING to an existing MIDI sequence with multiple instruments.\nThe existing sequence ends at time "
    ++ toString end_time ++ "ms.\nInstrument bank: " ++ bank_info.name ++ " (" ++ bank_info.desc ++
    ")\n\n- Start your new notes AFTER the existing sequence (t > " ++ toString end_time ++
    ")\n- Continue the musical style, key, and instrumentation\n- Use the same instruments (i field) as the existing composition\n- Output ONLY new note events as JSON, one per line\n- Generate at least 30-50 new notes\n\nAvailable instruments: " ++ instrument_summary

/-- `START_CHUNK_DEADLINE` (src/server.py line 181), in seconds (the
source value is the float `60.0`). -/
def START_CHUNK_DEADLINE : Nat := 60

/-- `IDLE_CHUNK_GAP` (src/server.py line 182), in seconds (source `60.0`). -/
def IDLE_CHUNK_GAP : Nat := 60

/-- `REQUEST_HARD_LIMIT` (src/server.py line 183), in seconds (source `300.0`). -/
def REQUEST_HARD_LIMIT : Nat := 300

/-- `MAX_PROMPT_LEN` (src/server.py line 184). -/
def MAX_PROMPT_LEN : Nat := 512

/-- Python whitespace for `str.strip()` (ASCII range). -/
def pyIsSpace (c : Char) : Bool :=
  c == ' ' || c == '\t' || c == '\n' || c == '\r' || c == '\x0b' || c == '\x0c'

/-- Model of Python `str.strip()`. -/
def pyStrip (s : String) : String :=
  String.mk (((s.data.dropWhile pyIsSpace).reverse.dropWhile pyIsSpace).reverse)

/-- Model of Python `str.lower()` (ASCII case folding). -/
def pyLower (s : String) : String := String.mk (s.data.map Char.toLower)

/-- A control character in the class removed by `sanitize_prompt`:
`[\x00-\x1f\x7f-\x9f]` (src/server.py line 190). -/
def isCtlChar (c : Char) : Bool :=
  decide (c.toNat ≤ 0x1f) || (decide (0x7f ≤ c.toNat) && decide (c.toNat ≤ 0x9f))

/-- `sanitize_prompt` (src/server.py lines 187-191): trim, then strip
control characters. -/
def sanitize_prompt (prompt : String) : String :=
  String.mk ((pyStrip prompt).data.filter (fun c => !(isCtlChar c)))

/-- A structured record parsed from one line of accumulated content,
restricted to the fields the code inspects (`bank`, `t`, `n`, `v`, `d`,
`i`); an absent key is `none`.  These are the elements of the session's
`last_midi` list. -/
structure JObj where
  bank : Option String := none
  t : Option Int := none
  n : Option Int := none
  v : Option Int := none
  d : Option Int := none
  i : Option Int := none
deriving DecidableEq, Repr

/-- `calculate_end_time` (src/server.py lines 194-203): `max_end` starts
at 0 and is raised by every note whose `t + d` (missing fields counting
as 0) exceeds it. -/
def calculate_end_time (midi_notes : List JObj) : Int :=
  if midi_notes.isEmpty then 0
  else midi_notes.foldl (fun max_end note =>
    let e := note.t.getD 0 + note.d.getD 0
    if max_end < e then e else max_end) 0

/-- Keys of a bank's instrument dict — exactly 0..7 for every bank
(src/server.py lines 32-89); used for the `obj["i"] not in instruments`
membership test at line 308. -/
def instrumentKeys (instruments : List Instrument) : List Int :=
  (List.range instruments.length).map Int.ofNat

/-- State of the accumulated-content scan of src/server.py lines 285-312:
the local `detected_bank` flag and `new_notes` list, plus the session
fields the loop reads and writes (`session["bank"]`, resolved
`instruments`). -/
structure ParseSt where
  detected_bank : Option String
  session_bank : Option String
  instruments : List Instrument
  new_notes : List JObj
deriving DecidableEq, Repr

/-- Processing of one candidate line of accumulated content (src/server.py
lines 289-312).  Lines are modelled after `json.loads`: a `none` entry is
a line that is not a braced record or fails to parse (silently skipped,
lines 311-312); a `some obj` entry is the parsed record.  A record with a
`bank` key is a selection candidate only while the local `detected_bank`
flag is unset; a valid selection immediately overwrites
`session["bank"]`.  A record with all of `t`, `n`, `v`, `d` is a note:
`i` defaults to 0 and an id outside the current bank's keys is coerced
to 0. -/
def parse_line (st : ParseSt) (line : Option JObj) : ParseSt :=
  match line with
  | none => st
  | some obj =>
    if obj.bank.isSome ∧ st.detected_bank = none then
      let selected_bank := pyLower (pyStrip (obj.bank.getD ""))
      if bankKeys.contains selected_bank then
        { detected_bank := some selected_bank
          session_bank := some selected_bank
          instruments := get_bank_instruments (some selected_bank)
          new_notes := st.new_notes }
      else st
    else if obj.t.isSome ∧ obj.n.isSome ∧ obj.v.isSome ∧ obj.d.isSome then
      let i0 := obj.i.getD 0
      let i1 := if (instrumentKeys st.instruments).contains i0 then i0 else 0
      { st with new_notes := st.new_notes ++ [{ obj with i := some i1 }] }
    else st

/-- The whole accumulated-content scan (src/server.py lines 285-312),
starting from the session's current bank (`session.get("bank",
DEFAULT_BANK)` resolves to the electronic instruments when the stored
value is unset). -/
def run_parse (session_bank : Option String) (lines : List (Option JObj)) : ParseSt :=
  lines.foldl parse_line
    { detected_bank := none
      session_bank := session_bank
      instruments := get_bank_instruments session_bank
      new_notes := [] }

/-- Session state of one connection (src/server.py lines 348-353): the
dict keys become typed fields; `None` becomes `none`. -/
structure Session where
  original_prompt : Option String
  last_midi : List JObj
  tempo : Int
  bank : Option String
deriving DecidableEq, Repr

/-- The session as created at connection accept (src/server.py lines
348-353) — also the state `clear_session` resets to (lines 369-374). -/
def session_init : Session := ⟨none, [], 120, none⟩

/-- One message of the prompt list handed to the LLM client
(src/server.py lines 227-231 and 235-238). -/
structure ChatMsg where
  role : String
  content : String
deriving DecidableEq, Repr

/-- An outbound JSON message of the compose protocol (the payloads sent
with `websocket.send_json` in src/server.py). -/
inductive SrvMsg where
  | start (id : String)
  | chunkMsg (id : String) (data : String)
  | thinkingChunk (id : String) (data : String)
  | cancelledSig (id : String)
  | done (id : String) (bank : Option String)
  | errorMsg (id : String) (message : String)
  | pong
  | session_cleared
deriving DecidableEq, Repr

/-- One send attempt on the websocket: the message and whether the
transport accepted it.  A `safe_send` whose transport fails still appears
here with `ok = false` (the exception is swallowed, src/server.py lines
249-253); a raw `send_json` that fails also appears with `ok = false` and
additionally aborts the surrounding code, which the execution model below
reflects. -/
structure Sent where
  msg : SrvMsg
  ok : Bool
deriving DecidableEq, Repr

/-- Truthiness of the session's stored bank value (`session.get("bank")`
is falsy for `None` and for the empty string). -/
def truthyBank : Option String → Bool
  | some b => !(b == "")
  | none => false

/-- Python rendering of an optional string inside an f-string (`None`
renders as the text `"None"`, src/server.py line 229 when
`original_prompt` is unset). -/
def pyStrOpt : Option String → String
  | some s => s
  | none => "None"

/-- A failure raised by the upstream stream, as distinguished inside
`LLMClient.stream_completion` (src/llm.py lines 115-119):
`litellm.exceptions.ServiceUnavailableError` versus any other exception
(carrying its detail text). -/
inductive UpExc where
  | serviceUnavailable
  | otherError (detail : String)
deriving DecidableEq, Repr

/-- How the upstream stream terminates after yielding its chunks. -/
inductive EndKind where
  | ok
  | fail (e : UpExc)
deriving DecidableEq, Repr

/-- The exception type observed by `handle_compose`'s handlers
(src/server.py lines 326-332): a `ConnectionError` or anything else. -/
inductive SrvExc where
  | connectionError (msg : String)
  | otherExc (msg : String)
deriving DecidableEq, Repr

/-- The exception wrapper at the bottom of `stream_completion`
(src/llm.py lines 115-119): a `ServiceUnavailableError` becomes
`ConnectionError(f"{provider} unavailable")`, and EVERY other exception
also becomes a `ConnectionError` (`f"LLM error: {e}"`), after logging the
full detail. -/
def stream_exc_wrap (provider : String) : UpExc → SrvExc
  | .serviceUnavailable => .connectionError (provider ++ " unavailable")
  | .otherError d => .connectionError ("LLM error: " ++ d)

/-- The terminal error message chosen by `handle_compose`'s exception
handlers (src/server.py lines 326-332): `ConnectionError` gets the fixed
user-facing text, any other exception the generic text; the exception's
own message is only logged, never sent. -/
def handler_msg : SrvExc → String
  | .connectionError _ => "Cannot connect to LLM. Is the service running?"
  | .otherExc _ => "An error occurred."

/-- All inputs determining one `handle_compose` execution: the client
fields of the compose command (`prompt` after sanitisation, `id`,
`provider`, `refine`, `bankId`) and the environment's nondeterminism —
the typed chunks the upstream stream yields (output of the tag splitter),
the structural view of the accumulated content after `json.loads` per
line (`parsedLines`; the empty list corresponds to an empty accumulated
content), how the stream terminates (`endr`), from which chunk index a
signalled cancellation is observed (`cancelAt`), and which send attempts
(numbered from 0 = the `start` message) the transport rejects
(`sendFails`). -/
structure ExecParams where
  req_id : String
  prompt : String
  provider : String
  refine : Bool
  bank_id : Option String
  chunks : List (TKind × String)
  parsedLines : List (Option JObj)
  endr : EndKind
  cancelAt : Option Nat
  sendFails : List Nat
deriving DecidableEq, Repr

/-- The bank-validity filter at src/server.py line 214:
`bank_id if bank_id and bank_id != "auto" and bank_id in INSTRUMENT_BANKS
else None`. -/
def effective_bank0 (bank_id : Option String) : Option String :=
  match bank_id with
  | some b => if b ≠ "" ∧ b ≠ "auto" ∧ bankKeys.contains b then some b else none
  | none => none

/-- Output of the synchronous head of `handle_compose` (lines 206-247):
the session after its eager mutations, the message list handed to the LLM
client, the `start` send attempt, and whether that raw send raised
(aborting the execution before the streaming loop). -/
structure PhaseAOut where
  session : Session
  messages : List ChatMsg
  trace : List Sent
  raised : Bool
deriving DecidableEq, Repr

/-- The synchronous head of `handle_compose` (src/server.py lines
206-247): bank resolution (lines 213-220), mode resolution and message
building with the session mutations of the fresh path (lines 222-244),
then the unguarded `start` send (line 247). -/
def execPhaseA (p : ExecParams) (s : Session) : PhaseAOut :=
  let eff0 := effective_bank0 p.bank_id
  let cond1 := p.refine && truthyBank s.bank
  let effective_bank := if cond1 then s.bank else eff0
  let s1 := if cond1 then s else (if truthyBank eff0 then { s with bank := eff0 } else s)
  let startSent : List Sent := [⟨SrvMsg.start p.req_id, !(p.sendFails.contains 0)⟩]
  let raised := p.sendFails.contains 0
  if p.refine && !s1.last_midi.isEmpty then
    let end_time := calculate_end_time s1.last_midi
    { session := s1
      messages :=
        [⟨"system", get_refinement_prompt s1.bank end_time⟩,
         ⟨"user", "The existing composition is: " ++ pyStrOpt s1.original_prompt⟩,
         ⟨"user", "Add to the composition: " ++ p.prompt⟩]
      trace := startSent
      raised := raised }
  else
    let s2 := { s1 with
      original_prompt := some p.prompt
      last_midi := ([] : List JObj)
      bank := if truthyBank effective_bank then effective_bank else s1.bank }
    { session := s2
      messages :=
        [⟨"system", get_system_prompt effective_bank⟩,
         ⟨"user", "Compose: " ++ p.prompt⟩]
      trace := startSent
      raised := raised }

/-- Whether `cancel_event.is_set()` returns true at the loop iteration
for chunk index `i`: the observation parameter gives the first index at
which the set event is seen (`none` = never, e.g. the event was never set
or the stream ended first). -/
def cancel_set (cancelAt : Option Nat) (i : Nat) : Bool :=
  match cancelAt with
  | some k => decide (k ≤ i)
  | none => false

/-- How the `async for` loop of src/server.py lines 258-278 ends. -/
inductive BExit where
  | completed
  | cancelledEarly
  | sendFailed
deriving DecidableEq, Repr

/-- The streaming loop of `handle_compose` (src/server.py lines 257-278):
per yielded chunk, first the cancellation poll (emit `cancelled` via
`safe_send` and return), then the raw forwarding send, whose failure logs
and returns with no terminal signal.  Arguments: chunk index, send-attempt
index, remaining chunks; returns the send attempts, the exit kind and the
next send-attempt index. -/
def runChunks (req_id : String) (sendFails : List Nat) (obs : Option Nat) :
    Nat → Nat → List (TKind × String) → List Sent × BExit × Nat
  | _, sIdx, [] => ([], .completed, sIdx)
  | i, sIdx, (k, dta) :: rest =>
    if cancel_set obs i then
      ([⟨SrvMsg.cancelledSig req_id, !(sendFails.contains sIdx)⟩], .cancelledEarly, sIdx + 1)
    else
      let m := match k with
        | TKind.content => SrvMsg.chunkMsg req_id dta
        | TKind.thinking => SrvMsg.thinkingChunk req_id dta
      if sendFails.contains sIdx then
        ([⟨m, false⟩], .sendFailed, sIdx + 1)
      else
        let r := runChunks req_id sendFails obs (i + 1) (sIdx + 1) rest
        (⟨m, true⟩ :: r.1, r.2.1, r.2.2)

/-- The `done` message's optional bank field (src/server.py lines
320-323: `if session and session.get("bank")`). -/
def doneBankField (s : Session) : Option String :=
  if truthyBank s.bank then s.bank else none

/-- The tail of `handle_compose` after the streaming loop ended without
cancellation or send failure (src/server.py lines 280-332): on normal
stream end, the structural parse of the accumulated content (guarded by
`if accumulated_content`, lines 283-318) updates the session and a `done`
terminal is sent via `safe_send`; when the stream raised, the exception —
already wrapped by `stream_completion` — selects the terminal `error`
message.  The session is untouched on the error path. -/
def execPhaseC (p : ExecParams) (s : Session) (sIdx : Nat) : List Sent × Session :=
  match p.endr with
  | .ok =>
    let s' :=
      if p.parsedLines.isEmpty then s
      else
        let pr := run_parse s.bank p.parsedLines
        { s with bank := pr.session_bank,
                 last_midi := if p.refine then s.last_midi ++ pr.new_notes else pr.new_notes }
    ([⟨SrvMsg.done p.req_id (doneBankField s'), !(p.sendFails.contains sIdx)⟩], s')
  | .fail e =>
    ([⟨SrvMsg.errorMsg p.req_id (handler_msg (stream_exc_wrap p.provider e)),
       !(p.sendFails.contains sIdx)⟩], s)

/-- The asynchronous body of one execution — everything after the `start`
send: the streaming loop, then (only when it completed) the parse/done or
error tail.  `obs` is the cancellation-observation point in effect (the
caller passes `p.cancelAt` when the cancel event was actually signalled,
`none` when the task ran to completion on its own). -/
def execPhaseBC (p : ExecParams) (obs : Option Nat) (s : Session) : List Sent × Session :=
  let r := runChunks p.req_id p.sendFails obs 0 1 p.chunks
  match r.2.1 with
  | .completed =>
    let c := execPhaseC p s r.2.2
    (r.1 ++ c.1, c.2)
  | _ => (r.1, s)

/-- One whole `handle_compose` run (src/server.py lines 206-335): the
synchronous head, then — unless the raw `start` send raised — the
streaming body and tail. -/
def runHC (p : ExecParams) (obs : Option Nat) (s : Session) : List Sent × Session :=
  let a := execPhaseA p s
  if a.raised then (a.trace, a.session)
  else
    let bc := execPhaseBC p obs a.session
    (a.trace ++ bc.1, bc.2)

/-- The `first_chunk_time` metric (src/server.py lines 208-209, 265-266):
set to the arrival offset of the first processed chunk; it stays `None`
when no chunk is processed (no chunks, or cancellation observed before
chunk 0). -/
def first_chunk_latency (p : ExecParams) (obs : Option Nat) (arrival : Nat → Nat) : Option Nat :=
  if p.chunks.isEmpty || cancel_set obs 0 then none else some (arrival 0)

/-- Time-extended execution model: `arrival i` is the wall-clock offset in
seconds at which chunk `i` arrives.  `handle_compose` reads the clock only
at lines 208, 265-266 and 334-335, exclusively to record log metrics; no
statement of the function compares any elapsed time against
`START_CHUNK_DEADLINE`, `IDLE_CHUNK_GAP` or `REQUEST_HARD_LIMIT` (the
constants at lines 181-183 are referenced nowhere else in the
repository), so the emitted trace and the session are those of `runHC`
for every arrival schedule. -/
def runHCtimed (p : ExecParams) (obs : Option Nat) (s : Session) (arrival : Nat → Nat) :
    (List Sent × Session) × Option Nat :=
  (runHC p obs s, first_chunk_latency p obs arrival)

/-- Whether a protocol message is a terminal signal of an execution
(`done`, `cancelled` or `error`). -/
def isTerminal : SrvMsg → Bool
  | .done _ _ => true
  | .cancelledSig _ => true
  | .errorMsg _ _ => true
  | _ => false

/-- Whether a protocol message is an execution's `start` signal. -/
def isStart : SrvMsg → Bool
  | .start _ => true
  | _ => false

/-- Number of terminal-signal send attempts in a trace. -/
def terminalCount (tr : List Sent) : Nat :=
  (tr.filter (fun e => isTerminal e.msg)).length

/-- An inbound command of the websocket control loop (src/server.py
lines 356-402).  A `compose` carries the execution's full parameter
bundle (client fields plus environment nondeterminism); its `prompt`
field holds the raw client prompt, sanitised by the loop. -/
inductive InCmd where
  | ping
  | cancel
  | clear_session
  | compose (c : ExecParams)
deriving DecidableEq, Repr

/-- State of one connection's control loop: the session dict, the
currently pending (created, not yet completed/joined) execution, and the
accumulated list of message lists handed to the LLM client — the sequence
of upstream requests this connection has issued, one per spawned
execution. -/
structure LoopState where
  session : Session
  pending : Option ExecParams
  llmCalls : List (List ChatMsg)
deriving DecidableEq, Repr

/-- Loop state at connection accept (src/server.py lines 344-353). -/
def loop_init : LoopState := ⟨session_init, none, []⟩

/-- Completion of the pending execution's asynchronous remainder.  When
`signalled` is true this models `cancel_event.set(); await current_task`
(the join at src/server.py lines 364-367 and 396-399): the execution
observes the cancellation from its parameter's observation point.  When
`signalled` is false it models the task finishing on its own before the
next command is processed (the cancel event was never set, so the poll
never fires).  Either way, every send the execution still performs
happens before the loop continues — that is what `await current_task`
enforces. -/
def joinPending (st : LoopState) (signalled : Bool) : LoopState × List Sent :=
  match st.pending with
  | none => (st, [])
  | some p =>
    let r := execPhaseBC p (if signalled then p.cancelAt else none) st.session
    ({ st with session := r.2, pending := none }, r.1)

/-- One iteration of the control loop (src/server.py lines 356-402) on
one inbound command.  `doneFirst` is the scheduling nondeterminism: when
true, the pending execution ran to completion before this command was
received, so its remaining sends precede this command's handling.  The
dispatch is verbatim from the source: `ping` answers `pong`;
`cancel` cancels-and-joins a still-running task; `clear_session` resets
the four session fields and answers `session_cleared` — it does NOT touch
`current_task`; `compose` validates the sanitised prompt first (an
invalid prompt leaves any running task alone), then cancels-and-joins any
running task and spawns the new execution, whose synchronous head
(session mutations, LLM request, `start` send) runs before the loop next
blocks on receive.  A `start` send that raises finishes the task
immediately (it is then `done` and never awaited, so the exception is
never re-raised in the loop).  Loop-level sends (`pong`,
`session_cleared`, validation errors) are modelled as accepted. -/
def stepLoop (st : LoopState) (cmd : InCmd) (doneFirst : Bool) : LoopState × List Sent :=
  let pre := if doneFirst then joinPending st false else (st, [])
  let st1 := pre.1
  match cmd with
  | .ping => (st1, pre.2 ++ [⟨SrvMsg.pong, true⟩])
  | .cancel =>
    let j := joinPending st1 true
    (j.1, pre.2 ++ j.2)
  | .clear_session =>
    ({ st1 with session := session_init }, pre.2 ++ [⟨SrvMsg.session_cleared, true⟩])
  | .compose c =>
    let pr := sanitize_prompt c.prompt
    if pr = "" then
      (st1, pre.2 ++ [⟨SrvMsg.errorMsg c.req_id "Prompt cannot be empty.", true⟩])
    else if MAX_PROMPT_LEN < pr.length then
      (st1, pre.2 ++
        [⟨SrvMsg.errorMsg c.req_id
            ("Prompt too long (max " ++ toString MAX_PROMPT_LEN ++ " chars)."), true⟩])
    else
      let j := joinPending st1 true
      let p := { c with prompt := pr }
      let a := execPhaseA p j.1.session
      ({ session := a.session
         pending := if a.raised then none else some p
         llmCalls := j.1.llmCalls ++ [a.messages] },
       pre.2 ++ j.2 ++ a.trace)

/-- The control loop over a list of inbound commands with their
scheduling flags, concatenating all outbound send attempts in order. -/
def runLoop (st : LoopState) : List (InCmd × Bool) → List Sent × LoopState
  | [] => ([], st)
  | (c, df) :: rest =>
    let r := stepLoop st c df
    let rr := runLoop r.1 rest
    (r.2 ++ rr.1, rr.2)

/-! Helper lemmas about terminal signals and traces. -/

/-- Terminal-signal counting distributes over trace concatenation. -/
theorem terminalCount_append (a b : List Sent) :
    terminalCount (a ++ b) = terminalCount a + terminalCount b := by
  simp [terminalCount, List.filter_append]

/-- The streaming loop attempts a terminal signal exactly when it exits on
an observed cancellation (the `cancelled` message); chunk forwards are
never terminal, and the send-failure exit emits none. -/
theorem runChunks_terminalCount (req_id : String) (sendFails : List Nat) (obs : Option Nat) :
    ∀ (chunks : List (TKind × String)) (i sIdx : Nat),
      terminalCount (runChunks req_id sendFails obs i sIdx chunks).1 =
        (if (runChunks req_id sendFails obs i sIdx chunks).2.1 = BExit.cancelledEarly
         then 1 else 0) := by
  intro chunks
  induction chunks with
  | nil => intro i sIdx; simp [runChunks, terminalCount]
  | cons c rest ih =>
    intro i sIdx
    obtain ⟨k, dta⟩ := c
    cases hc : cancel_set obs i
    · by_cases hf : sIdx ∈ sendFails
      · cases k <;> simp [runChunks, hc, hf, terminalCount, isTerminal]
      · cases k <;>
          · simp [runChunks, hc, hf, terminalCount, isTerminal]
            simpa [terminalCount, isTerminal] using ih (i + 1) (sIdx + 1)
    · simp [runChunks, hc, terminalCount, isTerminal]

/-- With a transport that accepts every send, the streaming loop never
exits through the send-failure path. -/
theorem runChunks_exit_ok (req_id : String) (obs : Option Nat) :
    ∀ (chunks : List (TKind × String)) (i sIdx : Nat),
      (runChunks req_id [] obs i sIdx chunks).2.1 ≠ BExit.sendFailed := by
  intro chunks
  induction chunks with
  | nil => intro i sIdx; simp [runChunks]
  | cons c rest ih =>
    intro i sIdx
    obtain ⟨k, dta⟩ := c
    cases hc : cancel_set obs i
    · cases k <;> simpa [runChunks, hc] using ih (i + 1) (sIdx + 1)
    · simp [runChunks, hc]

/-- The post-stream tail attempts exactly one terminal signal (`done` on
normal end, `error` on an upstream failure). -/
theorem execPhaseC_terminalCount (p : ExecParams) (s : Session) (k : Nat) :
    terminalCount (execPhaseC p s k).1 = 1 := by
  cases hp : p.endr <;> simp [execPhaseC, hp, terminalCount, isTerminal]

/-- An execution's asynchronous body attempts at most one terminal signal
on every path. -/
theorem execPhaseBC_terminalCount_le (p : ExecParams) (obs : Option Nat) (s : Session) :
    terminalCount (execPhaseBC p obs s).1 ≤ 1 := by
  unfold execPhaseBC
  cases hx : (runChunks p.req_id p.sendFails obs 0 1 p.chunks).2.1 <;>
    simp [terminalCount_append, execPhaseC_terminalCount,
      runChunks_terminalCount p.req_id p.sendFails obs p.chunks 0 1, hx]

/-- When the transport accepts every send, an execution's asynchronous
body attempts exactly one terminal signal. -/
theorem execPhaseBC_terminalCount_eq (p : ExecParams) (obs : Option Nat) (s : Session)
    (h : p.sendFails = []) :
    terminalCount (execPhaseBC p obs s).1 = 1 := by
  unfold execPhaseBC
  cases hx : (runChunks p.req_id p.sendFails obs 0 1 p.chunks).2.1
  · simp [terminalCount_append, execPhaseC_terminalCount,
      runChunks_terminalCount p.req_id p.sendFails obs p.chunks 0 1, hx]
  · simp [runChunks_terminalCount p.req_id p.sendFails obs p.chunks 0 1, hx]
  · exfalso
    rw [h] at hx
    exact runChunks_exit_ok p.req_id obs p.chunks 0 1 hx

/-- The synchronous head of an execution sends exactly the `start`
message, regardless of mode. -/
theorem execPhaseA_trace (p : ExecParams) (s : Session) :
    (execPhaseA p s).trace = [⟨SrvMsg.start p.req_id, !(p.sendFails.contains 0)⟩] := by
  unfold execPhaseA
  dsimp only
  repeat' split
  all_goals rfl

/-- The synchronous head raises exactly when the `start` send fails. -/
theorem execPhaseA_raised (p : ExecParams) (s : Session) :
    (execPhaseA p s).raised = p.sendFails.contains 0 := by
  unfold execPhaseA
  dsimp only
  repeat' split
  all_goals rfl

/-- The streaming loop never emits a `start` message. -/
theorem runChunks_no_start (req_id : String) (sendFails : List Nat) (obs : Option Nat) :
    ∀ (chunks : List (TKind × String)) (i sIdx : Nat),
      ∀ e ∈ (runChunks req_id sendFails obs i sIdx chunks).1, isStart e.msg = false := by
  intro chunks
  induction chunks with
  | nil => intro i sIdx e he; simp [runChunks] at he
  | cons c rest ih =>
    intro i sIdx e he
    obtain ⟨k, dta⟩ := c
    cases hc : cancel_set obs i
    · by_cases hf : sIdx ∈ sendFails
      · cases k <;> simp [runChunks, hc, hf] at he <;> simp [he, isStart]
      · cases k <;> simp [runChunks, hc, hf] at he <;>
          rcases he with he | he
        · simp [he, isStart]
        · exact ih (i + 1) (sIdx + 1) e he
        · simp [he, isStart]
        · exact ih (i + 1) (sIdx + 1) e he
    · simp [runChunks, hc] at he
      simp [he, isStart]

/-- The post-stream tail never emits a `start` message. -/
theorem execPhaseC_no_start (p : ExecParams) (s : Session) (k : Nat) :
    ∀ e ∈ (execPhaseC p s k).1, isStart e.msg = false := by
  intro e he
  cases hp : p.endr <;> simp [execPhaseC, hp] at he <;> simp [he, isStart]

/-- An execution's asynchronous body never emits a `start` message: the
only `start` of an execution is sent by its synchronous head. -/
theorem execPhaseBC_no_start (p : ExecParams) (obs : Option Nat) (s : Session) :
    ∀ e ∈ (execPhaseBC p obs s).1, isStart e.msg = false := by
  intro e he
  unfold execPhaseBC at he
  have hrc := runChunks_no_start p.req_id p.sendFails obs p.chunks 0 1
  cases hx : (runChunks p.req_id p.sendFails obs 0 1 p.chunks).2.1 <;>
    simp only [hx] at he
  · rcases List.mem_append.mp he with h | h
    · exact hrc e h
    · exact execPhaseC_no_start p _ _ e h
  · exact hrc e he
  · exact hrc e he

/-- Shape of the outbound trace when a valid `compose` arrives while an
execution is pending: the joined remainder of the old execution, then the
new execution's `start` — the cancel-and-join at src/server.py lines
396-399 runs to completion before `asyncio.create_task` at line 402. -/
theorem stepLoop_compose_trace (st : LoopState) (p1 c2 : ExecParams)
    (hp : st.pending = some p1)
    (hne : sanitize_prompt c2.prompt ≠ "")
    (hlen : (sanitize_prompt c2.prompt).length ≤ MAX_PROMPT_LEN) :
    (stepLoop st (InCmd.compose c2) false).2 =
      (execPhaseBC p1 p1.cancelAt st.session).1 ++
        [⟨SrvMsg.start c2.req_id, !(c2.sendFails.contains 0)⟩] := by
  have hmax : ¬ (MAX_PROMPT_LEN < (sanitize_prompt c2.prompt).length) := not_lt.mpr hlen
  simp [stepLoop, joinPending, hp, hne, hmax, execPhaseA_trace]

/-- C2: single-flight ordering.  Whenever a second compose command is
accepted (nonempty sanitised prompt within the length bound) while an
execution is active, the outbound trace of that loop iteration is the
first execution's remaining messages — which contain exactly one terminal
signal (cancelled, done or error) when the transport accepts its sends
and never contain a `start` — followed by the second execution's `start`
as the final message.  Every terminal signal of the first execution is
therefore emitted strictly before the second execution's `start`. -/
theorem C2_single_flight (st : LoopState) (p1 c2 : ExecParams)
    (hp : st.pending = some p1)
    (hok : p1.sendFails = [])
    (hne : sanitize_prompt c2.prompt ≠ "")
    (hlen : (sanitize_prompt c2.prompt).length ≤ MAX_PROMPT_LEN) :
    ∃ t1 : List Sent,
      (stepLoop st (InCmd.compose c2) false).2 =
        t1 ++ [⟨SrvMsg.start c2.req_id, !(c2.sendFails.contains 0)⟩] ∧
      terminalCount t1 = 1 ∧
      ∀ e ∈ t1, isStart e.msg = false :=
  ⟨(execPhaseBC p1 p1.cancelAt st.session).1,
    stepLoop_compose_trace st p1 c2 hp hne hlen,
    execPhaseBC_terminalCount_eq p1 p1.cancelAt st.session hok,
    execPhaseBC_no_start p1 p1.cancelAt st.session⟩

/-- First execution of the C2 witness scenario: active, will observe the
cancellation at its first chunk. -/
def C2_p1 : ExecParams :=
  { req_id := "one", prompt := "first", provider := "ollama", refine := false,
    bank_id := none, chunks := [(TKind.content, "x")], parsedLines := [], endr := .ok,
    cancelAt := some 0, sendFails := [] }

/-- Second compose command of the C2 witness scenario. -/
def C2_c2 : ExecParams :=
  { req_id := "two", prompt := "second", provider := "ollama", refine := false,
    bank_id := none, chunks := [], parsedLines := [], endr := .ok,
    cancelAt := none, sendFails := [] }

/-- Loop state of the C2 witness scenario: execution one is active. -/
def C2_st : LoopState := { session := session_init, pending := some C2_p1, llmCalls := [] }

/-- Witness for C2 at a concrete scenario: a second compose accepted while
execution `"one"` is active. -/
theorem C2_single_flight_witness :
    (C2_st.pending = some C2_p1 ∧ C2_p1.sendFails = [] ∧
      sanitize_prompt C2_c2.prompt ≠ "" ∧
      (sanitize_prompt C2_c2.prompt).length ≤ MAX_PROMPT_LEN) ∧
    (∃ t1 : List Sent,
      (stepLoop C2_st (InCmd.compose C2_c2) false).2 =
        t1 ++ [⟨SrvMsg.start C2_c2.req_id, !(C2_c2.sendFails.contains 0)⟩] ∧
      terminalCount t1 = 1 ∧
      ∀ e ∈ t1, isStart e.msg = false) :=
  ⟨⟨rfl, rfl, by decide, by decide⟩,
   C2_single_flight C2_st C2_p1 C2_c2 rfl rfl (by decide) (by decide)⟩

/-- C3 (amended): an execution attempts at most one terminal signal on
every path, and exactly one on every path on which no raw websocket send
(the `start` message or a chunk forward) raises; the original claim's
"never zero" fails on the transport-failure path, see the
counterexample. -/
theorem C3_terminal_signals (p : ExecParams) (obs : Option Nat) (s : Session) :
    terminalCount (runHC p obs s).1 ≤ 1 ∧
    (p.sendFails = [] → terminalCount (runHC p obs s).1 = 1) := by
  constructor
  · unfold runHC
    cases hr : (execPhaseA p s).raised
    · simp [hr, terminalCount_append, execPhaseA_trace, terminalCount, isTerminal]
      simpa [terminalCount] using execPhaseBC_terminalCount_le p obs (execPhaseA p s).session
    · simp [hr, execPhaseA_trace, terminalCount, isTerminal]
  · intro h
    unfold runHC
    have hr : (execPhaseA p s).raised = false := by
      rw [execPhaseA_raised, h]; rfl
    simp [hr, terminalCount_append, execPhaseA_trace, terminalCount, isTerminal]
    simpa [terminalCount] using execPhaseBC_terminalCount_eq p obs (execPhaseA p s).session h

/-- Execution whose first chunk forward is rejected by the transport
(send attempt 1 fails): `handle_compose` logs and returns at src/server.py
lines 276-278 without any terminal signal. -/
def C3_cx : ExecParams :=
  { req_id := "r3", prompt := "p", provider := "ollama", refine := false,
    bank_id := none, chunks := [(TKind.content, "x")], parsedLines := [], endr := .ok,
    cancelAt := none, sendFails := [1] }

/-- C3 (falsified at a concrete input): on the transport-failure path —
the raw forwarding send of the first chunk raises — the execution emits
ZERO terminal signals, contradicting "never zero ... on every path
including transport/send failure". -/
theorem C3_counterexample : terminalCount (runHC C3_cx none session_init).1 = 0 := by decide

/-- Execution with a working transport for the C3 witness. -/
def C3_ok : ExecParams :=
  { req_id := "r3b", prompt := "p", provider := "ollama", refine := false,
    bank_id := none, chunks := [(TKind.content, "x")], parsedLines := [], endr := .ok,
    cancelAt := none, sendFails := [] }

/-- Witness for C3 (amended) at a concrete execution with a working
transport: exactly one terminal signal. -/
theorem C3_terminal_signals_witness :
    C3_ok.sendFails = [] ∧ terminalCount (runHC C3_ok none session_init).1 = 1 :=
  ⟨rfl, (C3_terminal_signals C3_ok none session_init).2 rfl⟩

/-- Execution used for the timeout analysis: a single chunk, normal end,
working transport. -/
def C4_p : ExecParams :=
  { req_id := "r4", prompt := "x", provider := "ollama", refine := false,
    bank_id := none, chunks := [(TKind.content, "data")], parsedLines := [], endr := .ok,
    cancelAt := none, sendFails := [] }

/-- C4 (the code does not enforce its timeouts): the emitted trace and
session are independent of every arrival schedule — the time-extended run
equals the untimed one for all arrival functions — and in particular an
execution whose first chunk arrives after 1000 seconds (far beyond
`START_CHUNK_DEADLINE = 60` and `REQUEST_HARD_LIMIT = 300`) still
completes with a `done` terminal, with the 1000-second first-chunk
latency merely recorded for logging.  The three timeout constants at
src/server.py lines 181-183 are referenced nowhere else in the
repository. -/
theorem C4_timeouts_not_enforced :
    (∀ arrival : Nat → Nat,
      (runHCtimed C4_p none session_init arrival).1 = runHC C4_p none session_init) ∧
    (runHCtimed C4_p none session_init (fun _ => 1000)).2 = some 1000 ∧
    START_CHUNK_DEADLINE < 1000 ∧ REQUEST_HARD_LIMIT < 1000 ∧
    ((runHC C4_p none session_init).1.map Sent.msg).getLast? = some (SrvMsg.done "r4" none) :=
  ⟨fun _ => rfl, rfl, by decide, by decide, by decide⟩

/-- Execution whose upstream fails with a generic (non-unavailable)
error carrying detail text. -/
def C5_cx : ExecParams :=
  { req_id := "r5", prompt := "p", provider := "openrouter", refine := false,
    bank_id := none, chunks := [], parsedLines := [], endr := .fail (.otherError "boom"),
    cancelAt := none, sendFails := [] }

/-- C5 (falsified at a concrete input): a generation failure that is NOT
the service-unavailable condition is reported with the very same fixed
message `"Cannot connect to LLM. Is the service running?"` that the
unavailable case uses — not with a distinct generic string — because
`stream_completion` wraps every exception into `ConnectionError`
(src/llm.py lines 115-119), and `handle_compose`'s `except
ConnectionError` branch (src/server.py lines 326-328) therefore catches
both. -/
theorem C5_counterexample :
    (runHC C5_cx none session_init).1 =
      [⟨SrvMsg.start "r5", true⟩,
       ⟨SrvMsg.errorMsg "r5" "Cannot connect to LLM. Is the service running?", true⟩] ∧
    handler_msg (stream_exc_wrap "openrouter" UpExc.serviceUnavailable) =
      "Cannot connect to LLM. Is the service running?" := ⟨by decide, rfl⟩

/-- C5 (amended): every upstream-stream failure — unavailable or not — is
reported as a terminal error with the fixed message `"Cannot connect to
LLM. Is the service running?"`; the generic `"An error occurred."` is
reserved for exceptions that are not `ConnectionError` (failures outside
the stream); and redaction holds — the emitted trace does not depend on
the failure's detail text, which is only logged. -/
theorem C5_error_reporting (prov d1 d2 : String) (e : UpExc) (p : ExecParams)
    (obs : Option Nat) (s : Session) :
    handler_msg (stream_exc_wrap prov e) = "Cannot connect to LLM. Is the service running?" ∧
    handler_msg (SrvExc.otherExc d1) = "An error occurred." ∧
    runHC { p with endr := EndKind.fail (UpExc.otherError d1) } obs s =
      runHC { p with endr := EndKind.fail (UpExc.otherError d2) } obs s := by
  refine ⟨by cases e <;> rfl, rfl, ?_⟩
  rfl

/-- First execution of the C6 scenario: a fresh composition whose content
parses to one note. -/
def C6_e1 : ExecParams :=
  { req_id := "a", prompt := "an upbeat song", provider := "ollama",
    refine := false, bank_id := none,
    chunks := [(TKind.content, "\x7b\"t\": 0, \"n\": 60, \"v\": 80, \"d\": 500, \"i\": 0\x7d")],
    parsedLines := [some { t := some 0, n := some 60, v := some 80, d := some 500, i := some 0 }],
    endr := .ok, cancelAt := none, sendFails := [] }

/-- Second compose of the C6 scenario, requesting a refinement turn. -/
def C6_e2 : ExecParams :=
  { req_id := "b", prompt := "jazz", provider := "ollama", refine := true,
    bank_id := none, chunks := [], parsedLines := [], endr := .ok, cancelAt := none,
    sendFails := [] }

/-- C6 (falsified at a concrete scenario): the reset command
(`clear_session`, src/server.py lines 369-376) does NOT cancel-and-join an
active execution — after `compose` then `clear_session` the task is still
pending — and consequently a subsequent `compose` with `refine = true`
need not behave as a fresh composition: when the still-running first
execution completes after the reset, it repopulates the cleared session's
note list, and the second compose builds the three-message refinement
request (with end time 500 and the cleared prompt rendering as `"None"`)
instead of the two-message fresh request. -/
theorem C6_counterexample :
    ((runLoop loop_init [(InCmd.compose C6_e1, false), (InCmd.clear_session, false)]).2).pending.isSome
      = true ∧
    ((runLoop loop_init [(InCmd.compose C6_e1, false), (InCmd.clear_session, false),
        (InCmd.compose C6_e2, true)]).2).llmCalls.getD 1 [] =
      [⟨"system", get_refinement_prompt none 500⟩,
       ⟨"user", "The existing composition is: None"⟩,
       ⟨"user", "Add to the composition: jazz"⟩] := ⟨by decide, by decide⟩

/-- C6 (amended): `clear_session` is valid in either state and resets the
session's prompt, note list, tempo and catalog selection while answering
`session_cleared` — but it leaves any active execution untouched (no
cancel, no join); and a subsequent compose with `refine = true` behaves as
a fresh composition provided the session's note list is (still) empty and
no bank is fixed, i.e. provided no still-running execution repopulated it
after the reset. -/
theorem C6_reset_semantics (st : LoopState) (p : ExecParams) (s : Session)
    (hm : s.last_midi = []) (hb : s.bank = none) :
    (stepLoop st InCmd.clear_session false).1.session = session_init ∧
    (stepLoop st InCmd.clear_session false).1.pending = st.pending ∧
    (stepLoop st InCmd.clear_session false).2 = [⟨SrvMsg.session_cleared, true⟩] ∧
    (execPhaseA p s).messages =
      [⟨"system", get_system_prompt (effective_bank0 p.bank_id)⟩,
       ⟨"user", "Compose: " ++ p.prompt⟩] := by
  refine ⟨rfl, rfl, rfl, ?_⟩
  have hb1 : truthyBank s.bank = false := by rw [hb]; rfl
  cases ht : truthyBank (effective_bank0 p.bank_id) <;>
    simp [execPhaseA, hb1, hm, ht]

/-- Refine-requesting compose used by the C6 witness. -/
def C6_wp : ExecParams :=
  { req_id := "w", prompt := "calm piano", provider := "ollama", refine := true,
    bank_id := none, chunks := [], parsedLines := [], endr := .ok, cancelAt := none,
    sendFails := [] }

/-- Witness for C6 (amended) at a concrete state: the freshly reset
session satisfies the hypotheses, and a refine-requesting compose builds
the fresh two-message request. -/
theorem C6_reset_semantics_witness :
    (session_init.last_midi = [] ∧ session_init.bank = none) ∧
    ((stepLoop loop_init InCmd.clear_session false).1.session = session_init ∧
     (stepLoop loop_init InCmd.clear_session false).1.pending = loop_init.pending ∧
     (stepLoop loop_init InCmd.clear_session false).2 = [⟨SrvMsg.session_cleared, true⟩] ∧
     (execPhaseA C6_wp session_init).messages =
       [⟨"system", get_system_prompt (effective_bank0 C6_wp.bank_id)⟩,
        ⟨"user", "Compose: " ++ C6_wp.prompt⟩]) :=
  ⟨⟨rfl, rfl⟩, C6_reset_semantics loop_init C6_wp session_init rfl rfl⟩

/-- The first record in the line list whose `bank` value, stripped and
lower-cased, is a valid catalog key — the selection the scan of
src/server.py lines 289-312 ends up storing.  (A record with a `bank`
key but an invalid value selects nothing and does not block later
selection records.) -/
def firstValidSelection : List (Option JObj) → Option String
  | [] => none
  | none :: rest => firstValidSelection rest
  | some obj :: rest =>
    match obj.bank with
    | some bval =>
      let nb := pyLower (pyStrip bval)
      if bankKeys.contains nb then some nb else firstValidSelection rest
    | none => firstValidSelection rest

/-- Once the local `detected_bank` flag is set, a line never changes the
stored bank or the flag (selection is first-seen within one scan). -/
theorem parse_line_detected_some (st : ParseSt) (l : Option JObj)
    (h : st.detected_bank ≠ none) :
    (parse_line st l).session_bank = st.session_bank ∧
    (parse_line st l).detected_bank = st.detected_bank := by
  cases l with
  | none => exact ⟨rfl, rfl⟩
  | some obj =>
    have hcond : ¬ (obj.bank.isSome ∧ st.detected_bank = none) := by
      intro hh; exact h hh.2
    simp only [parse_line, if_neg hcond]
    split
    · exact ⟨rfl, rfl⟩
    · exact ⟨rfl, rfl⟩

/-- Fold version of the first-seen property: with the flag set, the rest
of the scan leaves the stored bank unchanged. -/
theorem parse_fold_detected_some (lines : List (Option JObj)) :
    ∀ st : ParseSt, st.detected_bank ≠ none →
      (lines.foldl parse_line st).session_bank = st.session_bank := by
  induction lines with
  | nil => intro st _; rfl
  | cons l rest ih =>
    intro st h
    obtain ⟨h1, h2⟩ := parse_line_detected_some st l h
    rw [List.foldl_cons, ih (parse_line st l) (by rw [h2]; exact h), h1]

/-- The stored bank after a whole scan is the first valid selection of
the line list when one exists, and the initial value otherwise. -/
theorem parse_fold_bank (lines : List (Option JObj)) :
    ∀ st : ParseSt, st.detected_bank = none →
      (lines.foldl parse_line st).session_bank =
        (match firstValidSelection lines with
         | some b => some b
         | none => st.session_bank) := by
  induction lines with
  | nil => intro st _; rfl
  | cons l rest ih =>
    intro st h
    cases l with
    | none =>
      rw [List.foldl_cons]
      show (rest.foldl parse_line st).session_bank = _
      rw [ih st h]
      rfl
    | some obj =>
      rcases hbk : obj.bank with _ | bval
      · have hcond : ¬ (obj.bank.isSome ∧ st.detected_bank = none) := by simp [hbk]
        rw [List.foldl_cons]
        have hpl : (parse_line st (some obj)).session_bank = st.session_bank ∧
            (parse_line st (some obj)).detected_bank = st.detected_bank := by
          simp only [parse_line, if_neg hcond]
          split
          · exact ⟨rfl, rfl⟩
          · exact ⟨rfl, rfl⟩
        rw [ih (parse_line st (some obj)) (by rw [hpl.2]; exact h), hpl.1]
        show _ = (match firstValidSelection (some obj :: rest) with
          | some b => some b
          | none => st.session_bank)
        simp [firstValidSelection, hbk]
      · have hcond : obj.bank.isSome ∧ st.detected_bank = none := by simp [hbk, h]
        by_cases hv : pyLower (pyStrip bval) ∈ bankKeys
        · rw [List.foldl_cons]
          have hpl : parse_line st (some obj) =
              { detected_bank := some (pyLower (pyStrip bval))
                session_bank := some (pyLower (pyStrip bval))
                instruments := get_bank_instruments (some (pyLower (pyStrip bval)))
                new_notes := st.new_notes } := by
            simp [parse_line, hbk, h, hv]
          rw [hpl, parse_fold_detected_some rest _ (by simp)]
          show some (pyLower (pyStrip bval)) = (match firstValidSelection (some obj :: rest) with
            | some b => some b
            | none => st.session_bank)
          simp [firstValidSelection, hbk, hv]
        · rw [List.foldl_cons]
          have hpl : parse_line st (some obj) = st := by
            simp [parse_line, hbk, h, hv]
          rw [hpl, ih st h]
          show _ = (match firstValidSelection (some obj :: rest) with
            | some b => some b
            | none => st.session_bank)
          simp [firstValidSelection, hbk, hv]

/-- C7 (amended): within one execution's content scan, selection is
first-seen — the session's catalog key after the scan is the first valid
selection record of the content when one exists (valid meaning the
stripped, lower-cased value is a known catalog key), and the session's
previous key otherwise.  A valid selection record always overwrites
whatever key the session had: the first-seen guard is the execution-local
`detected_bank` flag (src/server.py line 295), not the session state, so
session-level immutability — refuted by the counterexample — does not
hold. -/
theorem C7_selection_first_seen (sb : Option String) (lines : List (Option JObj)) :
    (run_parse sb lines).session_bank =
      (match firstValidSelection lines with
       | some b => some b
       | none => sb) :=
  parse_fold_bank lines _ rfl

/-- Execution whose client fixed the catalog key `"electronic"` and whose
content then contains a `"retro"` selection record. -/
def C7_cx : ExecParams :=
  { req_id := "r7", prompt := "x", provider := "ollama", refine := false,
    bank_id := some "electronic",
    chunks := [(TKind.content, "\x7b\"bank\": \"retro\"\x7d")],
    parsedLines := [some { bank := some "retro" }], endr := .ok, cancelAt := none,
    sendFails := [] }

/-- C7 (falsified at a concrete input): the session's catalog key is
fixed to `"electronic"` at the start of the execution (client-selected),
yet the selection record in the accumulated content changes it to
`"retro"` — a selection fires although a key was already fixed for the
session, and the fixed selection does not survive the turn. -/
theorem C7_counterexample :
    (execPhaseA C7_cx session_init).session.bank = some "electronic" ∧
    (runHC C7_cx none session_init).2.bank = some "retro" := ⟨by decide, by decide⟩

/-- The claimed per-note end value: `t + d`, a missing field counting
as 0 (`note.get("t", 0) + note.get("d", 0)`, src/server.py line 200). -/
def note_end (note : JObj) : Int := note.t.getD 0 + note.d.getD 0

/-- The running-maximum fold of `calculate_end_time` computes the
maximum of 0 and all per-note end values. -/
theorem calculate_end_time_foldl (notes : List JObj) :
    calculate_end_time notes = (notes.map note_end).foldl max 0 := by
  have h : ∀ (l : List JObj) (acc : Int),
      l.foldl (fun max_end note =>
        let e := note.t.getD 0 + note.d.getD 0
        if max_end < e then e else max_end) acc = (l.map note_end).foldl max acc := by
    intro l
    induction l with
    | nil => intro acc; rfl
    | cons a l ih =>
      intro acc
      have hstep : (if acc < a.t.getD 0 + a.d.getD 0 then a.t.getD 0 + a.d.getD 0 else acc) =
          max acc (note_end a) := by
        unfold note_end
        by_cases hlt : acc < a.t.getD 0 + a.d.getD 0
        · rw [if_pos hlt, max_eq_right (le_of_lt hlt)]
        · rw [if_neg hlt, max_eq_left (not_lt.mp hlt)]
      simp only [List.foldl_cons, List.map_cons]
      show l.foldl _ (if acc < a.t.getD 0 + a.d.getD 0 then a.t.getD 0 + a.d.getD 0 else acc) = _
      rw [hstep]
      exact ih (max acc (note_end a))
  by_cases he : notes.isEmpty
  · have hnil : notes = [] := by simpa using he
    simp [calculate_end_time, hnil]
  · unfold calculate_end_time
    rw [if_neg he]
    exact h notes 0

/-- C10 (amended): `calculate_end_time` returns 0 on the empty list and
in general the maximum of 0 and all per-note `t + d` values (missing
fields counting as 0) — the clamp at 0 is what the counterexample forces
— and in refinement mode this value, computed from the session's note
list, is the end time passed to `get_refinement_prompt` as the lower
bound for new notes. -/
theorem C10_end_time (notes : List JObj) (p : ExecParams) (s : Session)
    (hr : p.refine = true) (hm : s.last_midi ≠ []) :
    calculate_end_time [] = 0 ∧
    calculate_end_time notes = (notes.map note_end).foldl max 0 ∧
    (execPhaseA p s).messages.head? =
      some ⟨"system",
        get_refinement_prompt (execPhaseA p s).session.bank
          (calculate_end_time s.last_midi)⟩ := by
  refine ⟨rfl, calculate_end_time_foldl notes, ?_⟩
  cases hsb : truthyBank s.bank <;>
    cases ht : truthyBank (effective_bank0 p.bank_id) <;>
    simp [execPhaseA, hsb, ht, hr, hm]

/-- A note with a negative start time, reachable through the structural
parser (all four required fields present, values are valid JSON
integers). -/
def C10_note : JObj := { t := some (-1), n := some 60, v := some 80, d := some 0 }

/-- C10 (falsified at a concrete input): for the singleton list holding a
note with `t = -1`, `d = 0`, the claimed value — the maximum over all
notes of `t + d` — is `-1`, but `calculate_end_time` returns 0: its
running maximum starts at 0, so the result is clamped below at 0 rather
than being the plain maximum. -/
theorem C10_counterexample :
    calculate_end_time [C10_note] = 0 ∧
    note_end C10_note = -1 ∧
    calculate_end_time [C10_note] ≠ note_end C10_note := by decide

/-- Session of the C10 witness: one note ending at 300 ms. -/
def C10_wses : Session :=
  { original_prompt := some "song",
    last_midi := [{ t := some 100, n := some 60, v := some 80, d := some 200, i := some 0 }],
    tempo := 120, bank := none }

/-- Refinement compose of the C10 witness. -/
def C10_wp : ExecParams :=
  { req_id := "w10", prompt := "more", provider := "ollama", refine := true,
    bank_id := none, chunks := [], parsedLines := [], endr := .ok, cancelAt := none,
    sendFails := [] }

/-- Witness for C10 (amended) at a concrete refinement turn. -/
theorem C10_end_time_witness :
    (C10_wp.refine = true ∧ C10_wses.last_midi ≠ []) ∧
    (calculate_end_time [] = 0 ∧
     calculate_end_time [C10_note] = ([C10_note].map note_end).foldl max 0 ∧
     (execPhaseA C10_wp C10_wses).messages.head? =
       some ⟨"system",
         get_refinement_prompt (execPhaseA C10_wp C10_wses).session.bank
           (calculate_end_time C10_wses.last_midi)⟩) :=
  ⟨⟨rfl, by decide⟩, C10_end_time [C10_note] C10_wp C10_wses rfl (by decide)⟩
